import Mathlib

/-!
Verification of the tasker-mcp workflow orchestration engine.

This file shallowly embeds the JavaScript sources of the repository:

* `src/unnamed/part_000` (first unit): class `GithubTool` — the
  version-control adapter, including `validateBranchName` (the policy
  validator) and the `run` dispatcher that catches every failure and
  returns a normal `isError` response.
* `src/unnamed/part_000` (second unit): class `TrelloTool` — the
  task-board adapter, whose `run` dispatcher re-throws wrapped failures.
* `src/tools/workflow.js`: class `WorkflowIntegration` — the workflow
  orchestrator with its three workflows.

Remote octokit / node-trello calls, `Date.now()`, `JSON.parse`, base64
codecs and date formatting are modelled as explicit environment records
(oracles); a rejected remote call is `Except.error m` where `m` is the
JS error message.  JS `undefined`-able string arguments are `Option
String`; JS truthiness of strings (where `""` and `undefined` are
falsy) is `optTruthy`; template interpolation of `undefined` renders
the string "undefined" via `optStr`.  JS string `.length` counts UTF-16
units; the model counts characters, which agrees on all inputs the
claims range over.  Workflow runs additionally return the trace of
adapter `run` invocations they perform, in order.
-/

namespace TaskerMCP

/-- JS truthiness of a possibly-undefined string: undefined and "" are falsy. -/
def optTruthy : Option String → Bool
  | none => false
  | some s => s != ""

/-- JS template interpolation of a possibly-undefined string. -/
def optStr : Option String → String
  | none => "undefined"
  | some s => s

/-- JS `a || b` where `a` is a possibly-undefined string and `b` a string. -/
def jsOr (a : Option String) (b : String) : String :=
  match a with
  | none => b
  | some s => if s == "" then b else s

/-- JS `a || b` on two possibly-undefined strings. -/
def jsOrOpt (a b : Option String) : Option String :=
  match a with
  | none => b
  | some s => if s == "" then b else some s

/-- One element of an MCP response `content` array (always type "text" here). -/
structure ContentItem where
  type : String
  text : String
deriving Repr, DecidableEq

/-- An MCP tool response: `content` plus the `isError` flag (absent = false). -/
structure ToolResponse where
  content : List ContentItem
  isError : Bool := false
deriving Repr, DecidableEq

/-- One configured repository (constructor argument of `GithubTool`). -/
structure RepoConfig where
  name : String
  repo : String
  defaultBranch : String
deriving Repr, DecidableEq

/-- Verdict of `GithubTool.validateBranchName`.  The JS object carries
`isValid` plus, depending on the branch taken, `error`/`rules` or
`complianceMessage`; absent fields are `none`. -/
structure BranchValidation where
  isValid : Bool
  error : Option String := none
  rules : Option String := none
  complianceMessage : Option String := none
deriving Repr, DecidableEq

/-- The fixed prefix whitelist of `validateBranchName` (`rules.prefixes`). -/
def rulePrefixes : List String :=
  ["feature/", "fix/", "enhancement/", "hotfix/", "bugfix/", "feat/",
   "chore/", "docs/", "style/", "refactor/", "test/"]

/-- The fixed maximum length of `validateBranchName` (`rules.maxLength`). -/
def ruleMaxLength : Nat := 50

/-- Character class of the regex `[a-z0-9\/\-_]+` with the `i` flag. -/
def isAllowedChar (c : Char) : Bool :=
  decide (('a' ≤ c ∧ c ≤ 'z') ∨ ('A' ≤ c ∧ c ≤ 'Z') ∨ ('0' ≤ c ∧ c ≤ '9')
    ∨ c = '/' ∨ c = '-' ∨ c = '_')

/-- `GithubTool.validateBranchName` from `src/unnamed/part_000`: prefix
rule, then length rule, then character-set rule, first failure winning;
on success the verdict carries the compliance message. -/
def validateBranchName (branchName : String) : BranchValidation :=
  if ¬ (rulePrefixes.any (fun p => p.data.isPrefixOf branchName.data)) = true then
    { isValid := false,
      error := some ("Branch name must start with one of: " ++
        String.intercalate ", " rulePrefixes),
      rules := some ("📋 Git Best Practice Rules:\n• Use descriptive prefixes (feature/, fix/, enhancement/, etc.)\n• Keep names under " ++
        toString ruleMaxLength ++
        " characters\n• Use lowercase with hyphens or underscores\n• Example: feature/user-authentication or fix/login-bug") }
  else if branchName.data.length > ruleMaxLength then
    { isValid := false,
      error := some ("Branch name too long (" ++ toString branchName.data.length ++
        "/" ++ toString ruleMaxLength ++ " chars)"),
      rules := some ("📋 Git Best Practice Rules:\n• Keep branch names under " ++
        toString ruleMaxLength ++ " characters\n• Use concise but descriptive names") }
  else if ¬ (branchName.data ≠ [] ∧ branchName.data.all isAllowedChar = true) then
    { isValid := false,
      error := some "Branch name contains invalid characters",
      rules := some "📋 Git Best Practice Rules:\n• Use only letters, numbers, hyphens, underscores, and forward slashes\n• No spaces or special characters" }
  else
    { isValid := true,
      complianceMessage := some "✅ Branch name follows company Git best practices" }

/-- Arguments of `GithubTool.run` (MCP call payload); `action` defaults to
"create_branch" as in the JS parameter default. -/
structure GHArgs where
  repoName : Option String := none
  taskBranch : Option String := none
  taskDescription : Option String := none
  action : String := "create_branch"
deriving Repr, DecidableEq

/-- Data of an octokit `pulls.create` response used by the source. -/
structure PrData where
  number : Nat
  htmlUrl : String
deriving Repr, DecidableEq

/-- Data of one branch from `repos.listBranches` used by the source
(`branch.name`, `branch.protected`). -/
structure BranchInfo where
  name : String
  isProtected : Bool
deriving Repr, DecidableEq

/-- Data of one PR from `pulls.list` used by the source. -/
structure PrInfo where
  number : Nat
  title : String
  headRef : String
  baseRef : String
  htmlUrl : String
deriving Repr, DecidableEq

/-- Data of a `repos.getContent` response used by the source
(base64 `content` and `sha`). -/
structure FileData where
  content : String
  sha : String
deriving Repr, DecidableEq

/-- Result of `JSON.parse` on the `updateInfo` string in `updateFile`. -/
structure UpdateInfo where
  filepath : String
  content : String
  message : Option String
deriving Repr, DecidableEq

/-- Behaviour of the remote GitHub API (octokit) and the ambient JS
runtime, as explicit response functions.  `Except.error m` models a
rejected call whose error has message `m`.  `reposListBranches` is the
per_page-50 call, `pullsList` the state-open per_page-20 call.  `now`
is `Date.now()`; `parseUpdateInfo` is `JSON.parse` on the update-info
string (throwing on malformed input); the base64 codecs are the
`Buffer` conversions. -/
structure GithubEnv where
  gitGetRef : String → String → String → Except String String
  gitCreateRef : String → String → String → String → Except String Unit
  pullsCreate : String → String → String → String → String → String → Except String PrData
  reposListBranches : String → String → Except String (List BranchInfo)
  pullsList : String → String → Except String (List PrInfo)
  reposGetContent : String → String → String → String → Except String FileData
  createOrUpdateFile : String → String → String → String → String → String → String → Except String Unit
  decodeBase64 : String → String
  encodeBase64 : String → String
  parseUpdateInfo : String → Except String UpdateInfo
  now : Nat

/-- The `GithubTool` instance state: its configured repository list. -/
structure GithubState where
  repos : List RepoConfig
deriving Repr, DecidableEq

/-- JS `const [owner, repo] = targetRepo.repo.split("/")`: the first two
segments (an absent second segment interpolates as "undefined"). -/
def splitOwnerRepo (full : String) : String × String :=
  let parts := full.splitOn "/"
  (optStr parts[0]?, optStr parts[1]?)

/-- `repos.find(r => r.name === repoName || r.repo === repoName)`. -/
def findRepo (st : GithubState) (repoName : Option String) : Option RepoConfig :=
  st.repos.find? (fun r => some r.name == repoName || some r.repo == repoName)

/-- `GithubTool.listRepositoriesFormatted`. -/
def listRepositoriesFormatted (st : GithubState) : ToolResponse :=
  { content := [⟨"text", "📋 Configured Repositories:\n" ++
      String.intercalate "\n\n" (st.repos.map (fun r =>
        "• " ++ r.name ++ "\n  GitHub: " ++ r.repo ++
        "\n  Default Branch: " ++ r.defaultBranch))⟩] }

/-- `GithubTool.listBranches`. -/
def listBranchesM (env : GithubEnv) (owner repo : String) : Except String ToolResponse := do
  let branches ← env.reposListBranches owner repo
  pure { content := [⟨"text", "📋 Branches in " ++ owner ++ "/" ++ repo ++ ":\n" ++
      String.intercalate "\n" (branches.map (fun b =>
        "• " ++ b.name ++ (if b.isProtected then " (protected)" else "")))⟩] }

/-- `GithubTool.generatePRBody`. -/
def generatePRBody (title headBranch baseBranch : String) : String :=
  "## Description\n" ++ title ++
  "\n\n## Type of Change\n- [ ] Bug fix (non-breaking change which fixes an issue)\n- [ ] New feature (non-breaking change which adds functionality)\n- [ ] Breaking change (fix or feature that would cause existing functionality to not work as expected)\n- [ ] Documentation update\n- [ ] Code refactoring\n- [ ] Performance improvement\n\n## Testing\n- [ ] I have tested these changes locally\n- [ ] I have added tests that prove my fix is effective or that my feature works\n- [ ] New and existing unit tests pass locally with my changes\n\n## Checklist\n- [ ] My code follows the company coding standards\n- [ ] I have performed a self-review of my own code\n- [ ] I have commented my code, particularly in hard-to-understand areas\n- [ ] I have made corresponding changes to the documentation\n- [ ] My changes generate no new warnings\n- [ ] Any dependent changes have been merged and published\n\n## Branch: \x60" ++
  headBranch ++ "\x60 → \x60" ++ baseBranch ++
  "\x60\n\n**Created by:** GitHub MCP Server\n**Note:** Please ensure this PR follows all company guidelines before merging."

/-- `GithubTool.getPRGuidelines`. -/
def prGuidelines : String :=
  "📋 **Next Steps - Company PR Guidelines:**\n• Add reviewers from your team\n• Link related issues using \"Closes #123\" or \"Fixes #123\"\n• Ensure all CI checks pass\n• Update documentation if needed\n• Test thoroughly before requesting review\n• Use \"Squash and merge\" for feature branches"

/-- `GithubTool.createBranch`: validates the branch name with
`validateBranchName`; on violation returns (not throws) an `isError`
response; otherwise resolves the base ref and creates the new ref. -/
def createBranchM (env : GithubEnv) (owner repo branchName baseBranch description : String) :
    Except String ToolResponse :=
  let validation := validateBranchName branchName
  if validation.isValid = false then
    Except.ok
      { content := [⟨"text", "❌ Branch name validation failed: " ++
          optStr validation.error ++ "\n\n📋 Company Rules:\n" ++ optStr validation.rules⟩],
        isError := true }
  else do
    let sha ← env.gitGetRef owner repo ("heads/" ++ baseBranch)
    let _ ← env.gitCreateRef owner repo ("refs/heads/" ++ branchName) sha
    pure { content := [⟨"text", "✅ Created branch \x27" ++ branchName ++ "\x27 from \x27" ++
        baseBranch ++ "\x27 in " ++ owner ++ "/" ++ repo ++ "\n📝 Description: " ++ description ++
        "\n\n" ++ optStr validation.complianceMessage⟩] }

/-- `GithubTool.createPullRequest`. -/
def createPullRequestM (env : GithubEnv) (owner repo headBranch baseBranch title : String) :
    Except String ToolResponse := do
  let prBody := generatePRBody title headBranch baseBranch
  let pr ← env.pullsCreate owner repo title headBranch baseBranch prBody
  pure { content := [⟨"text", "✅ Created PR #" ++ toString pr.number ++ ": " ++ pr.htmlUrl ++
      "\n📋 " ++ headBranch ++ " → " ++ baseBranch ++ "\n\n" ++ prGuidelines⟩] }

/-- `GithubTool.listPullRequests`. -/
def listPullRequestsM (env : GithubEnv) (owner repo : String) : Except String ToolResponse := do
  let prs ← env.pullsList owner repo
  pure { content := [⟨"text", "📋 Open Pull Requests in " ++ owner ++ "/" ++ repo ++ ":\n" ++
      String.intercalate "\n\n" (prs.map (fun pr =>
        "• #" ++ toString pr.number ++ ": " ++ pr.title ++ "\n  " ++ pr.headRef ++
        " → " ++ pr.baseRef ++ " (" ++ pr.htmlUrl ++ ")"))⟩] }

/-- `GithubTool.getFileContent`: its own try/catch turns any failure
into a file-not-found `isError` response. -/
def getFileContentM (env : GithubEnv) (owner repo filepath branch : String) :
    Except String ToolResponse :=
  match env.reposGetContent owner repo filepath branch with
  | Except.error _ =>
      Except.ok { content := [⟨"text", "❌ File not found: " ++ filepath ++ " in " ++
          owner ++ "/" ++ repo ++ ":" ++ branch⟩], isError := true }
  | Except.ok file =>
      let content := env.decodeBase64 file.content
      Except.ok { content := [⟨"text", "📄 File: " ++ filepath ++ " (" ++ branch ++
          ")\n\x60\x60\x60\n" ++ content ++ "\n\x60\x60\x60"⟩] }

/-- `GithubTool.updateFile`: `JSON.parse` runs before the inner
try/catch, so a parse failure propagates to `run`; remote failures
inside the try become an `isError` response. -/
def updateFileM (env : GithubEnv) (owner repo updateInfoStr branch : String) :
    Except String ToolResponse := do
  let info ← env.parseUpdateInfo updateInfoStr
  match (do
      let currentFile ← env.reposGetContent owner repo info.filepath branch
      env.createOrUpdateFile owner repo info.filepath
        (jsOr info.message ("Update " ++ info.filepath))
        (env.encodeBase64 info.content) currentFile.sha branch : Except String Unit) with
  | Except.error m =>
      pure
        { content := [⟨"text", "❌ Failed to update " ++ info.filepath ++ ": " ++ m⟩],
          isError := true }
  | Except.ok _ =>
      pure { content := [⟨"text", "✅ Updated " ++ info.filepath ++ " in branch \x27" ++
          branch ++ "\x27 of " ++ owner ++ "/" ++ repo⟩] }

/-- Body of the try-block of `GithubTool.run`: repository lookup, branch
name defaulting, action dispatch.  `Except.error m` is a throw with
message `m` (caught by `githubRun`). -/
def githubRunBody (st : GithubState) (env : GithubEnv) (a : GHArgs) :
    Except String ToolResponse :=
  match findRepo st a.repoName with
  | none =>
      Except.error ("Repository \x27" ++ optStr a.repoName ++
        "\x27 not found. Available repos: " ++
        String.intercalate ", " (st.repos.map (fun r => r.name)))
  | some targetRepo =>
      let owner := (splitOwnerRepo targetRepo.repo).1
      let repo := (splitOwnerRepo targetRepo.repo).2
      let branchName := jsOr a.taskBranch ("task-" ++ toString env.now)
      match a.action with
      | "list_repos" => Except.ok (listRepositoriesFormatted st)
      | "list_branches" => listBranchesM env owner repo
      | "create_branch" =>
          createBranchM env owner repo branchName targetRepo.defaultBranch
            (optStr a.taskDescription)
      | "create_pr" =>
          createPullRequestM env owner repo branchName targetRepo.defaultBranch
            (optStr a.taskDescription)
      | "list_prs" => listPullRequestsM env owner repo
      | "get_file" =>
          getFileContentM env owner repo (optStr a.taskDescription) targetRepo.defaultBranch
      | "update_file" =>
          updateFileM env owner repo (optStr a.taskDescription) branchName
      | other => Except.error ("Unknown action: " ++ other)

/-- The catch-block response of `GithubTool.run`. -/
def ghCatchResponse (m : String) : ToolResponse :=
  { content := [⟨"text", "❌ Error: " ++ m⟩], isError := true }

/-- `GithubTool.run`: the whole body is wrapped in try/catch, so `run`
always returns a normal `ToolResponse` — it never throws. -/
def githubRun (st : GithubState) (env : GithubEnv) (a : GHArgs) : ToolResponse :=
  match githubRunBody st env a with
  | Except.ok r => r
  | Except.error m => ghCatchResponse m

/-- Arguments of `TrelloTool.run` (`action` plus the rest-spread args
used by the handlers); absent JS properties are `none`. -/
structure TrelloArgs where
  action : String
  boardId : Option String := none
  listId : Option String := none
  cardId : Option String := none
  title : Option String := none
  description : Option String := none
  dueDate : Option String := none
  closed : Option Bool := none
  comment : Option String := none
  labels : Option (List String) := none
  members : Option (List String) := none
deriving Repr, DecidableEq

/-- The `TrelloTool` instance state: its default board and list ids. -/
structure TrelloState where
  defaultBoardId : Option String := none
  defaultListId : Option String := none
deriving Repr, DecidableEq

/-- One board from the Trello `/1/members/me/boards` response. -/
structure BoardData where
  id : String
  name : String
  url : String
  closed : Bool
deriving Repr, DecidableEq

/-- One list from the Trello `/1/boards/:id/lists` response.  `pos` is
kept as its rendered text. -/
structure TrelloListData where
  id : String
  name : String
  closed : Bool
  pos : Nat
deriving Repr, DecidableEq

/-- One label of a Trello card. -/
structure LabelData where
  name : String
deriving Repr, DecidableEq

/-- A Trello card as returned by the REST calls; `listName` is the
`data.list?.name` of a move response. -/
structure CardData where
  id : String
  name : String
  desc : String
  url : String
  due : Option String
  closed : Bool
  labels : Option (List LabelData)
  listName : Option String
deriving Repr, DecidableEq

/-- A Trello comment action as returned by the comments endpoint:
`data.data.text`, `data.memberCreator.fullName`, `data.date`. -/
structure CommentData where
  text : String
  memberFullName : String
  date : String
deriving Repr, DecidableEq

/-- Payload of `POST /1/cards` as assembled by `createCard`. -/
structure CardCreatePayload where
  name : Option String
  desc : String
  idList : String
  due : Option String := none
  idLabels : Option (List String) := none
  idMembers : Option (List String) := none
deriving Repr, DecidableEq

/-- Payload of `PUT /1/cards/:id` as assembled by `updateCard` (fields
present iff the JS property was defined) and `moveCard` (`idList`). -/
structure CardUpdatePayload where
  name : Option String := none
  desc : Option String := none
  due : Option String := none
  closed : Option Bool := none
  idList : Option String := none
deriving Repr, DecidableEq

/-- Behaviour of the remote Trello REST API (node-trello) plus
`toLocaleString` date formatting, as explicit response functions;
`Except.error m` is a callback error with message `m`. -/
structure TrelloEnv where
  getBoards : Except String (List BoardData)
  getLists : String → Except String (List TrelloListData)
  postCard : CardCreatePayload → Except String CardData
  getCards : String → Except String (List CardData)
  putCard : String → CardUpdatePayload → Except String CardData
  postComment : String → String → Except String CommentData
  formatDate : String → String

/-- `card.labels?.map(l => l.name).join(', ') || 'None'`. -/
def labelsText (labels : Option (List LabelData)) : String :=
  match labels with
  | none => "None"
  | some ls =>
      let j := String.intercalate ", " (ls.map (fun l => l.name))
      if j == "" then "None" else j

/-- `TrelloTool.listBoards`. -/
def listBoardsM (env : TrelloEnv) : Except String ToolResponse := do
  let boards ← env.getBoards
  pure { content := [⟨"text", "📋 **Trello Boards:**\n\n" ++
      String.intercalate "\n\n" (boards.map (fun b =>
        "• **" ++ b.name ++ "** (ID: " ++ b.id ++ ")\n  URL: " ++ b.url ++
        "\n  Status: " ++ (if b.closed then "Closed" else "Open")))⟩] }

/-- `TrelloTool.listLists`. -/
def listListsM (st : TrelloState) (env : TrelloEnv) (boardId : Option String) :
    Except String ToolResponse :=
  let targetBoardId := jsOrOpt boardId st.defaultBoardId
  if optTruthy targetBoardId = false then
    Except.error "Board ID is required. Use list_boards to find board IDs."
  else do
    let lists ← env.getLists (optStr targetBoardId)
    pure { content := [⟨"text", "📝 **Lists in Board:**\n\n" ++
        String.intercalate "\n\n" (lists.map (fun l =>
          "• **" ++ l.name ++ "** (ID: " ++ l.id ++ ")\n  Status: " ++
          (if l.closed then "Closed" else "Open") ++ "\n  Position: " ++ toString l.pos))⟩] }

/-- `TrelloTool.createCard`: list id defaulting and truthiness check,
optional payload fields added only when truthy (`dueDate`) or defined
(`labels`, `members`), then `POST /1/cards`. -/
def createCardM (st : TrelloState) (env : TrelloEnv) (a : TrelloArgs) :
    Except String ToolResponse :=
  let targetListId := jsOrOpt a.listId st.defaultListId
  if optTruthy targetListId = false then
    Except.error "List ID is required. Use list_lists to find list IDs."
  else
    let cardData : CardCreatePayload :=
      { name := a.title,
        desc := jsOr a.description "",
        idList := optStr targetListId,
        due := if optTruthy a.dueDate then a.dueDate else none,
        idLabels := a.labels,
        idMembers := a.members }
    do
      let data ← env.postCard cardData
      pure { content := [⟨"text", "✅ **Trello Card Created Successfully!**\n\n" ++
          "📌 **Title:** " ++ data.name ++ "\n" ++
          "📝 **Description:** " ++ (if data.desc == "" then "No description" else data.desc) ++ "\n" ++
          "🔗 **URL:** " ++ data.url ++ "\n" ++
          "📅 **Due Date:** " ++ jsOr data.due "Not set" ++ "\n" ++
          "🏷️ **Labels:** " ++ labelsText data.labels⟩] }

/-- `TrelloTool.listCards`. -/
def listCardsM (st : TrelloState) (env : TrelloEnv) (listId : Option String) :
    Except String ToolResponse :=
  let targetListId := jsOrOpt listId st.defaultListId
  if optTruthy targetListId = false then
    Except.error "List ID is required. Use list_lists to find list IDs."
  else do
    let cards ← env.getCards (optStr targetListId)
    pure { content := [⟨"text", "🃏 **Cards in List:**\n\n" ++
        String.intercalate "\n\n" (cards.map (fun card =>
          "• **" ++ card.name ++ "** (ID: " ++ card.id ++ ")\n" ++
          "  Description: " ++ (if card.desc == "" then "No description" else card.desc) ++ "\n" ++
          "  Due: " ++ jsOr card.due "Not set" ++ "\n" ++
          "  Labels: " ++ labelsText card.labels ++ "\n" ++
          "  Status: " ++ (if card.closed then "Closed" else "Open") ++ "\n" ++
          "  URL: " ++ card.url))⟩] }

/-- `TrelloTool.updateCard`: requires a truthy card id; payload fields
present iff the corresponding argument was defined. -/
def updateCardM (env : TrelloEnv) (a : TrelloArgs) : Except String ToolResponse :=
  if optTruthy a.cardId = false then
    Except.error "Card ID is required for updating."
  else
    let updateData : CardUpdatePayload :=
      { name := a.title, desc := a.description, due := a.dueDate, closed := a.closed }
    do
      let data ← env.putCard (optStr a.cardId) updateData
      pure { content := [⟨"text", "✅ **Card Updated Successfully!**\n\n" ++
          "📌 **Title:** " ++ data.name ++ "\n" ++
          "📝 **Description:** " ++ (if data.desc == "" then "No description" else data.desc) ++ "\n" ++
          "🔗 **URL:** " ++ data.url ++ "\n" ++
          "📅 **Due Date:** " ++ jsOr data.due "Not set"⟩] }

/-- `TrelloTool.moveCard`: requires truthy card and list ids, then a
`PUT /1/cards/:id` with only `idList`. -/
def moveCardM (env : TrelloEnv) (a : TrelloArgs) : Except String ToolResponse :=
  if optTruthy a.cardId = false || optTruthy a.listId = false then
    Except.error "Both Card ID and List ID are required for moving."
  else do
    let data ← env.putCard (optStr a.cardId) { idList := a.listId }
    pure { content := [⟨"text", "✅ **Card Moved Successfully!**\n\n" ++
        "📌 **Card:** " ++ data.name ++ "\n" ++
        "📝 **New List:** " ++ jsOr data.listName "Unknown" ++ "\n" ++
        "🔗 **URL:** " ++ data.url⟩] }

/-- `TrelloTool.addComment`: requires truthy card id and comment text. -/
def addCommentM (env : TrelloEnv) (a : TrelloArgs) : Except String ToolResponse :=
  if optTruthy a.cardId = false || optTruthy a.comment = false then
    Except.error "Both Card ID and comment text are required."
  else do
    let data ← env.postComment (optStr a.cardId) (optStr a.comment)
    pure { content := [⟨"text", "💬 **Comment Added Successfully!**\n\n" ++
        "📝 **Comment:** " ++ data.text ++ "\n" ++
        "👤 **Author:** " ++ data.memberFullName ++ "\n" ++
        "📅 **Date:** " ++ env.formatDate data.date⟩] }

/-- Body of the try-block of `TrelloTool.run`: action dispatch. -/
def trelloRunBody (st : TrelloState) (env : TrelloEnv) (a : TrelloArgs) :
    Except String ToolResponse :=
  match a.action with
  | "list_boards" => listBoardsM env
  | "list_lists" => listListsM st env a.boardId
  | "create_card" => createCardM st env a
  | "list_cards" => listCardsM st env a.listId
  | "update_card" => updateCardM env a
  | "move_card" => moveCardM env a
  | "add_comment" => addCommentM env a
  | other => Except.error ("Unknown Trello action: " ++ other)

/-- `TrelloTool.run`: the catch block re-throws every failure wrapped as
"Trello operation failed: ...", so a failed Trello step DOES raise to
the caller (unlike `githubRun`). -/
def trelloRun (st : TrelloState) (env : TrelloEnv) (a : TrelloArgs) :
    Except String ToolResponse :=
  match trelloRunBody st env a with
  | Except.ok r => Except.ok r
  | Except.error m => Except.error ("Trello operation failed: " ++ m)

/-- One entry of the `results` ledger of `WorkflowIntegration`
(`\x7b type, action, result \x7d` objects pushed after each awaited call). -/
structure StepEntry where
  type : String
  action : String
  result : ToolResponse
deriving Repr, DecidableEq

/-- The value returned by each `WorkflowIntegration` method. -/
structure WorkflowOutcome where
  success : Bool
  message : String
  results : List StepEntry
deriving Repr, DecidableEq

/-- One adapter `run` invocation performed during a workflow, with its
arguments; workflow functions also return the ordered list of these. -/
inductive AdapterCall where
  | github (a : GHArgs)
  | trello (a : TrelloArgs)
deriving Repr, DecidableEq

/-- The two adapter `run` entry points as the orchestrator sees them:
each may return normally (`Except.ok`) or throw (`Except.error m`). -/
structure Adapters where
  githubRun : GHArgs → Except String ToolResponse
  trelloRun : TrelloArgs → Except String ToolResponse

/-- Parameters of `WorkflowIntegration.createTaskWithCard`. -/
structure TaskCreationParams where
  repoName : Option String := none
  branchName : Option String := none
  taskTitle : Option String := none
  taskDescription : Option String := none
  trelloListId : Option String := none
  dueDate : Option String := none
deriving Repr, DecidableEq

/-- Parameters of `WorkflowIntegration.createPRAndUpdateCard`
(`prDescription` is destructured but never used by the source). -/
structure ReviewTransitionParams where
  repoName : Option String := none
  branchName : Option String := none
  prTitle : Option String := none
  prDescription : Option String := none
  cardId : Option String := none
  reviewListId : Option String := none
deriving Repr, DecidableEq

/-- Parameters of `WorkflowIntegration.completeTask`; `deleteBranch`
defaults to false as in the JS destructuring default. -/
structure CompletionParams where
  cardId : Option String := none
  repoName : Option String := none
  branchName : Option String := none
  deleteBranch : Bool := false
deriving Repr, DecidableEq

/-- The github call of step 1 of `createTaskWithCard`. -/
def taskBranchArgs (p : TaskCreationParams) : GHArgs :=
  { repoName := p.repoName, action := "create_branch",
    taskBranch := p.branchName, taskDescription := p.taskTitle }

/-- The trello call of step 2 of `createTaskWithCard`, with the
templated card description. -/
def taskCardArgs (p : TaskCreationParams) : TrelloArgs :=
  { action := "create_card",
    title := p.taskTitle,
    description := some (optStr p.taskDescription ++ "\n\n🔗 **GitHub Branch:** " ++
      optStr p.branchName ++ "\n📁 **Repository:** " ++ optStr p.repoName),
    listId := p.trelloListId,
    dueDate := p.dueDate }

/-- The github call of step 1 of `createPRAndUpdateCard`. -/
def prArgs (p : ReviewTransitionParams) : GHArgs :=
  { repoName := p.repoName, action := "create_pr",
    taskBranch := p.branchName, taskDescription := p.prTitle }

/-- The trello move call of step 2 of `createPRAndUpdateCard`. -/
def moveArgs (p : ReviewTransitionParams) : TrelloArgs :=
  { action := "move_card", cardId := p.cardId, listId := p.reviewListId }

/-- The trello comment call of step 3 of `createPRAndUpdateCard`. -/
def commentArgs (p : ReviewTransitionParams) : TrelloArgs :=
  { action := "add_comment", cardId := p.cardId,
    comment := some ("🔍 **Pull Request Created!**\n\n📝 **Title:** " ++ optStr p.prTitle ++
      "\n🌿 **Branch:** " ++ optStr p.branchName ++ "\n📁 **Repository:** " ++
      optStr p.repoName ++ "\n\nReady for code review! 🚀") }

/-- The trello update call of step 1 of `completeTask`. -/
def completeUpdateArgs (p : CompletionParams) : TrelloArgs :=
  { action := "update_card", cardId := p.cardId, closed := some true }

/-- The trello comment call of step 2 of `completeTask`. -/
def completeCommentArgs (p : CompletionParams) : TrelloArgs :=
  { action := "add_comment", cardId := p.cardId,
    comment := some ("✅ **Task Completed!**\n\n🎉 This task has been successfully completed and the card is now closed.\n📁 Repository: " ++
      optStr p.repoName ++ "\n🌿 Branch: " ++ optStr p.branchName) }

/-- The try-block of a workflow method: either the success outcome, or
the first thrown message together with the `results` ledger accumulated
up to that point (the mutable `results` array the catch block closes
over); paired with the trace of adapter calls performed. -/
abbrev WorkflowTry := Except (String × List StepEntry) WorkflowOutcome × List AdapterCall

/-- The catch block of a workflow method: a throw from the try-block
becomes the normal failure outcome with the given message text and the
ledger accumulated so far. -/
def catchOutcome (failText : String) (x : WorkflowTry) : WorkflowOutcome × List AdapterCall :=
  (match x.1 with
   | Except.ok o => o
   | Except.error (m, rs) =>
       { success := false, message := failText ++ m, results := rs },
   x.2)

/-- Try-block of `WorkflowIntegration.createTaskWithCard`: create the
GitHub branch, push the ledger entry, create the Trello card, push its
entry, and return the success outcome. -/
def createTaskWithCardBody (p : TaskCreationParams) (ad : Adapters) : WorkflowTry :=
  let c1 := taskBranchArgs p
  match ad.githubRun c1 with
  | Except.error m => (Except.error (m, []), [AdapterCall.github c1])
  | Except.ok branchResult =>
      let r1 : List StepEntry :=
        [{ type := "github", action := "branch_created", result := branchResult }]
      let c2 := taskCardArgs p
      match ad.trelloRun c2 with
      | Except.error m => (Except.error (m, r1), [AdapterCall.github c1, AdapterCall.trello c2])
      | Except.ok cardResult =>
          (Except.ok
            { success := true, message := "Task workflow completed successfully!",
              results := r1 ++
                [{ type := "trello", action := "card_created", result := cardResult }] },
           [AdapterCall.github c1, AdapterCall.trello c2])

/-- `WorkflowIntegration.createTaskWithCard`, with its call trace. -/
def createTaskWithCardT (p : TaskCreationParams) (ad : Adapters) :
    WorkflowOutcome × List AdapterCall :=
  catchOutcome "Workflow failed: " (createTaskWithCardBody p ad)

/-- Try-block of `WorkflowIntegration.createPRAndUpdateCard`: create the
PR, then — only when both `cardId` and `reviewListId` are truthy — move
the card and add the PR comment. -/
def createPRAndUpdateCardBody (p : ReviewTransitionParams) (ad : Adapters) : WorkflowTry :=
  let c1 := prArgs p
  match ad.githubRun c1 with
  | Except.error m => (Except.error (m, []), [AdapterCall.github c1])
  | Except.ok prResult =>
      let r1 : List StepEntry :=
        [{ type := "github", action := "pr_created", result := prResult }]
      if optTruthy p.cardId && optTruthy p.reviewListId then
        let c2 := moveArgs p
        match ad.trelloRun c2 with
        | Except.error m =>
            (Except.error (m, r1), [AdapterCall.github c1, AdapterCall.trello c2])
        | Except.ok moveResult =>
            let r2 := r1 ++
              [{ type := "trello", action := "card_moved", result := moveResult }]
            let c3 := commentArgs p
            match ad.trelloRun c3 with
            | Except.error m =>
                (Except.error (m, r2),
                 [AdapterCall.github c1, AdapterCall.trello c2, AdapterCall.trello c3])
            | Except.ok commentResult =>
                (Except.ok
                  { success := true, message := "PR workflow completed successfully!",
                    results := r2 ++
                      [{ type := "trello", action := "comment_added", result := commentResult }] },
                 [AdapterCall.github c1, AdapterCall.trello c2, AdapterCall.trello c3])
      else
        (Except.ok
          { success := true, message := "PR workflow completed successfully!", results := r1 },
         [AdapterCall.github c1])

/-- `WorkflowIntegration.createPRAndUpdateCard`, with its call trace. -/
def createPRAndUpdateCardT (p : ReviewTransitionParams) (ad : Adapters) :
    WorkflowOutcome × List AdapterCall :=
  catchOutcome "PR workflow failed: " (createPRAndUpdateCardBody p ad)

/-- Try-block of `WorkflowIntegration.completeTask`: close the card,
then add the completion comment; no version-control call is made
(branch deletion is only a source comment). -/
def completeTaskBody (p : CompletionParams) (ad : Adapters) : WorkflowTry :=
  let c1 := completeUpdateArgs p
  match ad.trelloRun c1 with
  | Except.error m => (Except.error (m, []), [AdapterCall.trello c1])
  | Except.ok updateResult =>
      let r1 : List StepEntry :=
        [{ type := "trello", action := "card_completed", result := updateResult }]
      let c2 := completeCommentArgs p
      match ad.trelloRun c2 with
      | Except.error m => (Except.error (m, r1), [AdapterCall.trello c1, AdapterCall.trello c2])
      | Except.ok commentResult =>
          (Except.ok
            { success := true, message := "Task completion workflow finished!",
              results := r1 ++
                [{ type := "trello", action := "completion_comment_added",
                   result := commentResult }] },
           [AdapterCall.trello c1, AdapterCall.trello c2])

/-- `WorkflowIntegration.completeTask`, with its call trace. -/
def completeTaskT (p : CompletionParams) (ad : Adapters) :
    WorkflowOutcome × List AdapterCall :=
  catchOutcome "Completion workflow failed: " (completeTaskBody p ad)

/-- A workflow invocation: one of the three workflow kinds with its
parameters. -/
inductive WorkflowRequest where
  | taskCreation (p : TaskCreationParams)
  | reviewTransition (p : ReviewTransitionParams)
  | completion (p : CompletionParams)
deriving Repr, DecidableEq

/-- The catch-block message text of each workflow kind. -/
def failTextOf : WorkflowRequest → String
  | WorkflowRequest.taskCreation _ => "Workflow failed: "
  | WorkflowRequest.reviewTransition _ => "PR workflow failed: "
  | WorkflowRequest.completion _ => "Completion workflow failed: "

/-- Try-block of the workflow of the given kind. -/
def runWorkflowBody : WorkflowRequest → Adapters → WorkflowTry
  | WorkflowRequest.taskCreation p, ad => createTaskWithCardBody p ad
  | WorkflowRequest.reviewTransition p, ad => createPRAndUpdateCardBody p ad
  | WorkflowRequest.completion p, ad => completeTaskBody p ad

/-- Run a workflow of any kind: try-block plus boundary catch. -/
def runWorkflow (k : WorkflowRequest) (ad : Adapters) : WorkflowOutcome × List AdapterCall :=
  catchOutcome (failTextOf k) (runWorkflowBody k ad)

/-- The github tool state owned by the composed system. -/
structure SystemEnv where
  ghRepos : List RepoConfig
  gh : GithubEnv
  trState : TrelloState
  tr : TrelloEnv

/-- The adapters as actually wired in the source (`new
WorkflowIntegration(githubTool, trelloTool)`): `GithubTool.run` never
throws, so its `run` is always `Except.ok`; `TrelloTool.run` rethrows. -/
def mkAdapters (env : SystemEnv) : Adapters :=
  { githubRun := fun a => Except.ok (githubRun { repos := env.ghRepos } env.gh a),
    trelloRun := fun a => trelloRun env.trState env.tr a }

/-- Is this Except a normal return? -/
def isOkB {ε α : Type} : Except ε α → Bool
  | Except.ok _ => true
  | Except.error _ => false

/-- Did this adapter call return normally (not throw) under `ad`? -/
def callOk (ad : Adapters) : AdapterCall → Bool
  | AdapterCall.github a => isOkB (ad.githubRun a)
  | AdapterCall.trello a => isOkB (ad.trelloRun a)

/-- Is this call a version-control (github) adapter invocation? -/
def isGithubCall : AdapterCall → Bool
  | AdapterCall.github _ => true
  | AdapterCall.trello _ => false

/-- Service/action tag of a call, for comparing traces. -/
def callTag : AdapterCall → String × String
  | AdapterCall.github a => ("github", a.action)
  | AdapterCall.trello a => ("trello", a.action)

/-- Is this call a trello move_card invocation? -/
def isMoveCall (c : AdapterCall) : Bool :=
  match c with
  | AdapterCall.trello a => a.action == "move_card"
  | AdapterCall.github _ => false

/-- Is this call a trello add_comment invocation? -/
def isCommentCall (c : AdapterCall) : Bool :=
  match c with
  | AdapterCall.trello a => a.action == "add_comment"
  | AdapterCall.github _ => false

/-! Concrete fixtures used by the closed theorems: a single configured
repository, a happy remote GitHub API, and Trello remotes that either
succeed with fixed data or reject card creation. -/

/-- Example repository configuration. -/
def repoApp : RepoConfig := { name := "app", repo := "acme/app", defaultBranch := "develop" }

/-- A GitHub remote on which every call succeeds with fixed data. -/
def happyGithubEnv : GithubEnv :=
  { gitGetRef := fun _ _ _ => Except.ok "sha0",
    gitCreateRef := fun _ _ _ _ => Except.ok (),
    pullsCreate := fun _ _ _ _ _ _ => Except.ok { number := 7, htmlUrl := "https://pr/7" },
    reposListBranches := fun _ _ => Except.ok [],
    pullsList := fun _ _ => Except.ok [],
    reposGetContent := fun _ _ _ _ => Except.ok { content := "aGk=", sha := "f1" },
    createOrUpdateFile := fun _ _ _ _ _ _ _ => Except.ok (),
    decodeBase64 := fun s => s,
    encodeBase64 := fun s => s,
    parseUpdateInfo := fun _ => Except.error "Unexpected token",
    now := 1700000000000 }

/-- A fixed Trello card used as remote response data. -/
def happyCard : CardData :=
  { id := "card9", name := "Fix login", desc := "d", url := "https://t/c9",
    due := none, closed := false, labels := none, listName := none }

/-- A fixed Trello comment used as remote response data. -/
def happyComment : CommentData :=
  { text := "hello", memberFullName := "Ada", date := "2024-01-01" }

/-- A Trello remote on which every call succeeds with fixed data. -/
def happyTrelloEnv : TrelloEnv :=
  { getBoards := Except.ok [],
    getLists := fun _ => Except.ok [],
    postCard := fun _ => Except.ok happyCard,
    getCards := fun _ => Except.ok [],
    putCard := fun _ _ => Except.ok happyCard,
    postComment := fun _ _ => Except.ok happyComment,
    formatDate := fun s => s }

/-- A Trello remote that rejects card creation with message "boom". -/
def cardFailTrelloEnv : TrelloEnv :=
  { happyTrelloEnv with postCard := fun _ => Except.error "boom" }

/-- The composed system with the happy remotes. -/
def happySystemEnv : SystemEnv :=
  { ghRepos := [repoApp], gh := happyGithubEnv, trState := {}, tr := happyTrelloEnv }

/-- The composed system whose Trello remote rejects card creation. -/
def cardFailSystemEnv : SystemEnv :=
  { happySystemEnv with tr := cardFailTrelloEnv }

/-! Theorems for the claims C1–C10. -/

/-- C6: every candidate string that starts with one of the whitelisted
prefixes, has length at most 50, and consists only of characters in
[A-Za-z0-9/_-] is accepted by `validateBranchName`, and the verdict
carries the compliance confirmation string. -/
theorem c6_validate_accepts_compliant_names (s : String)
    (hpre : rulePrefixes.any (fun p => p.data.isPrefixOf s.data) = true)
    (hlen : s.data.length ≤ ruleMaxLength)
    (hchars : s.data.all isAllowedChar = true) :
    (validateBranchName s).isValid = true ∧
    (validateBranchName s).complianceMessage =
      some "✅ Branch name follows company Git best practices" := by
  have hne : s.data ≠ [] := by
    obtain ⟨p, hmem, hp⟩ := List.any_eq_true.mp hpre
    have hpne : p.data ≠ [] := by
      have hall : ∀ q ∈ rulePrefixes, q.data ≠ [] := by decide
      exact hall p hmem
    intro hnil
    rw [hnil] at hp
    cases hq : p.data with
    | nil => exact hpne hq
    | cons a as => rw [hq] at hp; simp [List.isPrefixOf] at hp
  unfold validateBranchName
  rw [if_neg (not_not_intro hpre)]
  rw [if_neg (by omega : ¬ s.data.length > ruleMaxLength)]
  rw [if_neg (not_not_intro ⟨hne, hchars⟩)]
  exact ⟨rfl, rfl⟩

/-- Witness for C6 at the concrete compliant input "feature/login-fix". -/
theorem c6_validate_accepts_compliant_names_witness :
    rulePrefixes.any (fun p => p.data.isPrefixOf "feature/login-fix".data) = true ∧
    "feature/login-fix".data.length ≤ ruleMaxLength ∧
    "feature/login-fix".data.all isAllowedChar = true ∧
    (validateBranchName "feature/login-fix").isValid = true ∧
    (validateBranchName "feature/login-fix").complianceMessage =
      some "✅ Branch name follows company Git best practices" := by
  have h := c6_validate_accepts_compliant_names "feature/login-fix"
    (by decide) (by decide) (by decide)
  exact ⟨by decide, by decide, by decide, h.1, h.2⟩

/-- C7: the policy rules are evaluated prefix rule first, then length
rule, then character-set rule, the first failing rule determining the
verdict (identified here by the rule-specific `error` text, the prefix
explanation listing the whitelist); plus the three concrete examples
"xyz-thing" (prefix), "feature/" + 60 × a (length, 68/50 chars) and
"feature/bad char" (character set). -/
theorem c7_rules_fixed_order_first_failure :
    (∀ s : String, rulePrefixes.any (fun p => p.data.isPrefixOf s.data) = false →
      (validateBranchName s).isValid = false ∧
      (validateBranchName s).error =
        some ("Branch name must start with one of: " ++
          String.intercalate ", " rulePrefixes)) ∧
    (∀ s : String, rulePrefixes.any (fun p => p.data.isPrefixOf s.data) = true →
      s.data.length > ruleMaxLength →
      (validateBranchName s).isValid = false ∧
      (validateBranchName s).error =
        some ("Branch name too long (" ++ toString s.data.length ++ "/" ++
          toString ruleMaxLength ++ " chars)")) ∧
    (∀ s : String, rulePrefixes.any (fun p => p.data.isPrefixOf s.data) = true →
      s.data.length ≤ ruleMaxLength →
      ¬ (s.data ≠ [] ∧ s.data.all isAllowedChar = true) →
      (validateBranchName s).isValid = false ∧
      (validateBranchName s).error = some "Branch name contains invalid characters") ∧
    ((validateBranchName "xyz-thing").isValid = false ∧
      (validateBranchName "xyz-thing").error =
        some "Branch name must start with one of: feature/, fix/, enhancement/, hotfix/, bugfix/, feat/, chore/, docs/, style/, refactor/, test/") ∧
    ((validateBranchName ("feature/" ++ String.mk (List.replicate 60 'a'))).isValid = false ∧
      (validateBranchName ("feature/" ++ String.mk (List.replicate 60 'a'))).error =
        some "Branch name too long (68/50 chars)") ∧
    ((validateBranchName "feature/bad char").isValid = false ∧
      (validateBranchName "feature/bad char").error =
        some "Branch name contains invalid characters") := by
  refine ⟨?_, ?_, ?_, by decide, by decide, by decide⟩
  · intro s h
    unfold validateBranchName
    rw [if_pos (by simp [h])]
    exact ⟨rfl, rfl⟩
  · intro s h1 h2
    unfold validateBranchName
    rw [if_neg (not_not_intro h1), if_pos h2]
    exact ⟨rfl, rfl⟩
  · intro s h1 h2 h3
    unfold validateBranchName
    rw [if_neg (not_not_intro h1), if_neg (by omega : ¬ s.data.length > ruleMaxLength),
      if_pos h3]
    exact ⟨rfl, rfl⟩

/-- Witness for C7: the prefix rule fires first on "zzz". -/
theorem c7_rules_fixed_order_first_failure_witness :
    rulePrefixes.any (fun p => p.data.isPrefixOf "zzz".data) = false ∧
    (validateBranchName "zzz").isValid = false ∧
    (validateBranchName "zzz").error =
      some ("Branch name must start with one of: " ++
        String.intercalate ", " rulePrefixes) := by
  have h := c7_rules_fixed_order_first_failure.1 "zzz" (by decide)
  exact ⟨by decide, h.1, h.2⟩

/-- The `GithubTool` state holding only the example repository. -/
def ghStateApp : GithubState := { repos := [repoApp] }

/-- A `create_branch` request whose branch name violates the policy. -/
def badBranchArgs : GHArgs :=
  { repoName := some "app", taskBranch := some "bad name!",
    taskDescription := some "t", action := "create_branch" }

/-- C9: `GithubTool.run` is total (its type returns a plain
`ToolResponse`, never an exception): a throw from its body is caught
and returned as the `isError = true` catch response; a normal body
result is returned as is; and a branch-name policy violation on
`create_branch` produces an `isError = true` value as well (that path
never throws at all).  Hence a failed version-control step never raises
an exception the workflow orchestrator could observe. -/
theorem c9_github_run_never_raises (st : GithubState) (env : GithubEnv) (a : GHArgs) :
    (∀ m, githubRunBody st env a = Except.error m →
      githubRun st env a = ghCatchResponse m ∧ (githubRun st env a).isError = true) ∧
    (∀ r, githubRunBody st env a = Except.ok r → githubRun st env a = r) ∧
    (∀ tr, findRepo st a.repoName = some tr → a.action = "create_branch" →
      (validateBranchName (jsOr a.taskBranch ("task-" ++ toString env.now))).isValid = false →
      (githubRun st env a).isError = true) := by
  refine ⟨?_, ?_, ?_⟩
  · intro m h
    unfold githubRun
    rw [h]
    exact ⟨rfl, rfl⟩
  · intro r h
    unfold githubRun
    rw [h]
  · intro tr hfind hact hval
    simp [githubRun, githubRunBody, createBranchM, hfind, hact, hval]

/-- Witness for C9: the policy-violating `create_branch` request returns
a normal `isError = true` response. -/
theorem c9_github_run_never_raises_witness :
    (githubRun ghStateApp happyGithubEnv badBranchArgs).isError = true := by
  exact (c9_github_run_never_raises ghStateApp happyGithubEnv badBranchArgs).2.2
    repoApp (by decide) rfl (by decide)

/-- C10: `completeTask` performs exactly the update-card-closed call
followed (when it returned) by the completion-comment call, both on the
task board; no version-control adapter operation occurs in the trace;
and the `deleteBranch` parameter (true or false) has no effect on the
run at all. -/
theorem c10_complete_task_touches_only_task_board (p : CompletionParams) (ad : Adapters) :
    (completeTaskT p ad).2 =
      AdapterCall.trello (completeUpdateArgs p) ::
        (match ad.trelloRun (completeUpdateArgs p) with
         | Except.ok _ => [AdapterCall.trello (completeCommentArgs p)]
         | Except.error _ => []) ∧
    (completeTaskT p ad).2.all (fun c => !(isGithubCall c)) = true ∧
    (∀ b : Bool, completeTaskT { p with deleteBranch := b } ad = completeTaskT p ad) := by
  refine ⟨?_, ?_, fun b => rfl⟩
  · cases h : ad.trelloRun (completeUpdateArgs p) with
    | error m => simp [completeTaskT, completeTaskBody, catchOutcome, h]
    | ok r =>
        cases hc : ad.trelloRun (completeCommentArgs p) with
        | error m => simp [completeTaskT, completeTaskBody, catchOutcome, h, hc]
        | ok r2 => simp [completeTaskT, completeTaskBody, catchOutcome, h, hc]
  · cases h : ad.trelloRun (completeUpdateArgs p) with
    | error m => simp [completeTaskT, completeTaskBody, catchOutcome, h, isGithubCall]
    | ok r =>
        cases hc : ad.trelloRun (completeCommentArgs p) with
        | error m => simp [completeTaskT, completeTaskBody, catchOutcome, h, hc, isGithubCall]
        | ok r2 => simp [completeTaskT, completeTaskBody, catchOutcome, h, hc, isGithubCall]

/-- TaskCreation parameters with a policy-compliant branch name. -/
def taskParamsOkBranch : TaskCreationParams :=
  { repoName := some "app", branchName := some "feature/login-fix", taskTitle := some "T",
    taskDescription := some "d", trelloListId := some "list1" }

/-- C3: in every workflow run, every adapter call before the last one in
the trace returned normally — so the first call that raises aborts the
remainder immediately and nothing (in particular no compensation call)
runs after it; and concretely, a TaskCreation run whose branch creation
succeeds and whose card creation throws returns success = false with
exactly the one github/branch_created ledger entry, the failure text,
and no call after the failed card creation. -/
theorem c3_first_raised_failure_aborts :
    (∀ (k : WorkflowRequest) (ad : Adapters),
      ((runWorkflow k ad).2.dropLast.all (callOk ad)) = true) ∧
    ((createTaskWithCardT taskParamsOkBranch (mkAdapters cardFailSystemEnv)).1.success = false ∧
      (createTaskWithCardT taskParamsOkBranch (mkAdapters cardFailSystemEnv)).1.results.map
        (fun e => (e.type, e.action, e.result.isError)) =
        [("github", "branch_created", false)] ∧
      (createTaskWithCardT taskParamsOkBranch (mkAdapters cardFailSystemEnv)).1.message =
        "Workflow failed: Trello operation failed: boom" ∧
      (createTaskWithCardT taskParamsOkBranch (mkAdapters cardFailSystemEnv)).2.map callTag =
        [("github", "create_branch"), ("trello", "create_card")]) := by
  refine ⟨?_, by decide⟩
  intro k ad
  cases k with
  | taskCreation p =>
      cases hg : ad.githubRun (taskBranchArgs p) with
      | error m =>
          simp [runWorkflow, runWorkflowBody, createTaskWithCardBody, catchOutcome, hg]
      | ok r =>
          cases ht : ad.trelloRun (taskCardArgs p) with
          | error m =>
              simp [runWorkflow, runWorkflowBody, createTaskWithCardBody, catchOutcome,
                hg, ht, callOk, isOkB]
          | ok r2 =>
              simp [runWorkflow, runWorkflowBody, createTaskWithCardBody, catchOutcome,
                hg, ht, callOk, isOkB]
  | reviewTransition p =>
      cases hg : ad.githubRun (prArgs p) with
      | error m =>
          simp [runWorkflow, runWorkflowBody, createPRAndUpdateCardBody, catchOutcome, hg]
      | ok r =>
          cases hgate : (optTruthy p.cardId && optTruthy p.reviewListId) with
          | false =>
              simp [runWorkflow, runWorkflowBody, createPRAndUpdateCardBody, catchOutcome,
                hg, hgate]
          | true =>
              cases hm : ad.trelloRun (moveArgs p) with
              | error m =>
                  simp [runWorkflow, runWorkflowBody, createPRAndUpdateCardBody, catchOutcome,
                    hg, hgate, hm, callOk, isOkB]
              | ok rm =>
                  cases hcm : ad.trelloRun (commentArgs p) with
                  | error m =>
                      simp [runWorkflow, runWorkflowBody, createPRAndUpdateCardBody,
                        catchOutcome, hg, hgate, hm, hcm, callOk, isOkB]
                  | ok rc =>
                      simp [runWorkflow, runWorkflowBody, createPRAndUpdateCardBody,
                        catchOutcome, hg, hgate, hm, hcm, callOk, isOkB]
  | completion p =>
      cases hu : ad.trelloRun (completeUpdateArgs p) with
      | error m =>
          simp [runWorkflow, runWorkflowBody, completeTaskBody, catchOutcome, hu]
      | ok r =>
          cases hc : ad.trelloRun (completeCommentArgs p) with
          | error m =>
              simp [runWorkflow, runWorkflowBody, completeTaskBody, catchOutcome,
                hu, hc, callOk, isOkB]
          | ok r2 =>
              simp [runWorkflow, runWorkflowBody, completeTaskBody, catchOutcome,
                hu, hc, callOk, isOkB]

/-- Every try-block success outcome has success = true (failure can only
arise from the catch block). -/
theorem runWorkflowBody_ok_success (k : WorkflowRequest) (ad : Adapters)
    (o : WorkflowOutcome) (h : (runWorkflowBody k ad).1 = Except.ok o) :
    o.success = true := by
  cases k <;>
    simp only [runWorkflowBody, createTaskWithCardBody, createPRAndUpdateCardBody,
      completeTaskBody] at h
  all_goals repeat' split at h
  all_goals simp at h
  all_goals rw [← h]

/-- C4: the orchestrator never throws — `runWorkflow` is a total
function into `WorkflowOutcome` — and on failure the outcome is exactly
the boundary-catch form: success = false, the kind-specific failure
text followed by the thrown message, and the ledger accumulated before
the throw. -/
theorem c4_orchestrator_never_throws (k : WorkflowRequest) (ad : Adapters) :
    (runWorkflow k ad).1.success = true ∨
    (∃ m rs, (runWorkflowBody k ad).1 = Except.error (m, rs) ∧
      (runWorkflow k ad).1 =
        { success := false, message := failTextOf k ++ m, results := rs }) := by
  cases h : (runWorkflowBody k ad).1 with
  | ok o =>
      left
      have hs := runWorkflowBody_ok_success k ad o h
      simp [runWorkflow, catchOutcome, h, hs]
  | error e =>
      right
      obtain ⟨m, rs⟩ := e
      exact ⟨m, rs, rfl, by simp [runWorkflow, catchOutcome, h]⟩

/-- C5: in every ReviewTransition run of the composed system (actual
`GithubTool`, whose `run` never throws, plus actual `TrelloTool` over
an arbitrary remote), move-card is invoked iff both `cardId` and
`reviewListId` are supplied (JS-truthy, i.e. present and non-empty, the
source's `cardId && reviewListId` gate); add-comment is invoked iff
move-card was scheduled and returned without throwing; and when neither
is supplied the run succeeds with exactly the one PR ledger entry and
the single PR adapter call — move/comment never attempted (this holds
whenever PR creation returns, hence in particular when it succeeds). -/
theorem c5_review_transition_optional_gating (env : SystemEnv) (p : ReviewTransitionParams) :
    ((createPRAndUpdateCardT p (mkAdapters env)).2.any isMoveCall =
      (optTruthy p.cardId && optTruthy p.reviewListId)) ∧
    ((createPRAndUpdateCardT p (mkAdapters env)).2.any isCommentCall =
      ((optTruthy p.cardId && optTruthy p.reviewListId) &&
        isOkB (trelloRun env.trState env.tr (moveArgs p)))) ∧
    (optTruthy p.cardId = false → optTruthy p.reviewListId = false →
      (createPRAndUpdateCardT p (mkAdapters env)).1.success = true ∧
      (createPRAndUpdateCardT p (mkAdapters env)).1.results.map
        (fun e => (e.type, e.action)) = [("github", "pr_created")] ∧
      (createPRAndUpdateCardT p (mkAdapters env)).2 = [AdapterCall.github (prArgs p)]) := by
  cases hgate : (optTruthy p.cardId && optTruthy p.reviewListId) with
  | false =>
      refine ⟨?_, ?_, ?_⟩
      · simp [createPRAndUpdateCardT, createPRAndUpdateCardBody, catchOutcome, mkAdapters,
          hgate, isMoveCall]
      · simp [createPRAndUpdateCardT, createPRAndUpdateCardBody, catchOutcome, mkAdapters,
          hgate, isCommentCall]
      · intro h1 h2
        refine ⟨?_, ?_, ?_⟩ <;>
          simp [createPRAndUpdateCardT, createPRAndUpdateCardBody, catchOutcome, mkAdapters,
            hgate]
  | true =>
      have hcard : optTruthy p.cardId = true := by
        cases hx : optTruthy p.cardId <;> simp [hx] at hgate <;> rfl
      cases hm : trelloRun env.trState env.tr (moveArgs p) with
      | error m =>
          refine ⟨?_, ?_, ?_⟩
          · simp [createPRAndUpdateCardT, createPRAndUpdateCardBody, catchOutcome, mkAdapters,
              hgate, hm, isMoveCall] <;> simp [moveArgs, commentArgs]
          · simp [createPRAndUpdateCardT, createPRAndUpdateCardBody, catchOutcome, mkAdapters,
              hgate, hm, isMoveCall, isCommentCall, isOkB] <;> simp [moveArgs, commentArgs]
          · intro h1 h2
            rw [h1] at hcard
            exact absurd hcard (by simp)
      | ok rm =>
          cases hcm : trelloRun env.trState env.tr (commentArgs p) with
          | error m =>
              refine ⟨?_, ?_, ?_⟩
              · simp [createPRAndUpdateCardT, createPRAndUpdateCardBody, catchOutcome,
                  mkAdapters, hgate, hm, hcm, isMoveCall] <;> simp [moveArgs, commentArgs]
              · simp [createPRAndUpdateCardT, createPRAndUpdateCardBody, catchOutcome,
                  mkAdapters, hgate, hm, hcm, isMoveCall, isCommentCall, isOkB] <;> simp [moveArgs, commentArgs]
              · intro h1 h2
                rw [h1] at hcard
                exact absurd hcard (by simp)
          | ok rc =>
              refine ⟨?_, ?_, ?_⟩
              · simp [createPRAndUpdateCardT, createPRAndUpdateCardBody, catchOutcome,
                  mkAdapters, hgate, hm, hcm, isMoveCall] <;> simp [moveArgs, commentArgs]
              · simp [createPRAndUpdateCardT, createPRAndUpdateCardBody, catchOutcome,
                  mkAdapters, hgate, hm, hcm, isMoveCall, isCommentCall, isOkB] <;> simp [moveArgs, commentArgs]
              · intro h1 h2
                rw [h1] at hcard
                exact absurd hcard (by simp)

/-- ReviewTransition parameters with no card id and no review list id. -/
def reviewParamsNoCard : ReviewTransitionParams :=
  { repoName := some "app", branchName := some "feature/login-fix", prTitle := some "My PR" }

/-- Witness for C5: with neither optional id supplied and a succeeding
PR creation, the run succeeds with one PR entry and one adapter call. -/
theorem c5_review_transition_optional_gating_witness :
    optTruthy reviewParamsNoCard.cardId = false ∧
    optTruthy reviewParamsNoCard.reviewListId = false ∧
    (createPRAndUpdateCardT reviewParamsNoCard (mkAdapters happySystemEnv)).1.success = true ∧
    (createPRAndUpdateCardT reviewParamsNoCard (mkAdapters happySystemEnv)).1.results.map
      (fun e => (e.type, e.action)) = [("github", "pr_created")] ∧
    (createPRAndUpdateCardT reviewParamsNoCard (mkAdapters happySystemEnv)).2 =
      [AdapterCall.github (prArgs reviewParamsNoCard)] := by
  have h := (c5_review_transition_optional_gating happySystemEnv reviewParamsNoCard).2.2
    rfl rfl
  exact ⟨rfl, rfl, h.1, h.2.1, h.2.2⟩

/-- C8: the orchestration logic is deterministic: two adapter pairs
giving identical responses to every call yield structurally identical
outcomes (and identical call traces) for every workflow kind and every
input. -/
theorem c8_orchestration_deterministic (k : WorkflowRequest) (ad1 ad2 : Adapters)
    (hg : ∀ a, ad1.githubRun a = ad2.githubRun a)
    (ht : ∀ a, ad1.trelloRun a = ad2.trelloRun a) :
    runWorkflow k ad1 = runWorkflow k ad2 := by
  cases ad1 with
  | mk g1 t1 =>
      cases ad2 with
      | mk g2 t2 =>
          have h1 : g1 = g2 := funext hg
          have h2 : t1 = t2 := funext ht
          subst h1
          subst h2
          rfl

/-- Witness for C8 at a concrete Completion run against the happy
system adapters. -/
theorem c8_orchestration_deterministic_witness :
    runWorkflow (WorkflowRequest.completion { cardId := some "card9" })
      (mkAdapters happySystemEnv) =
    runWorkflow (WorkflowRequest.completion { cardId := some "card9" })
      (mkAdapters happySystemEnv) :=
  c8_orchestration_deterministic (WorkflowRequest.completion { cardId := some "card9" })
    (mkAdapters happySystemEnv) (mkAdapters happySystemEnv)
    (fun _ => rfl) (fun _ => rfl)

/-- TaskCreation parameters whose branch name violates the policy. -/
def taskParamsPolicyViolation : TaskCreationParams :=
  { repoName := some "app", branchName := some "bad name!", taskTitle := some "Fix login",
    taskDescription := some "desc", trelloListId := some "list1" }

/-- C1 is false on the code: when the branch name is rejected by the
policy, `GithubTool.run` returns a normal `isError = true` value instead
of throwing, so `createTaskWithCard` records a github/branch_created
ledger entry for the failed step, goes on to attempt (and here
complete) card creation, and returns success = true with the success
message — not success = false with an empty ledger. -/
theorem c1_policy_violation_does_not_abort :
    (validateBranchName "bad name!").isValid = false ∧
    (createTaskWithCardT taskParamsPolicyViolation (mkAdapters happySystemEnv)).1.success
      = true ∧
    (createTaskWithCardT taskParamsPolicyViolation (mkAdapters happySystemEnv)).1.results.map
      (fun e => (e.type, e.action, e.result.isError)) =
      [("github", "branch_created", true), ("trello", "card_created", false)] ∧
    (createTaskWithCardT taskParamsPolicyViolation (mkAdapters happySystemEnv)).1.message =
      "Task workflow completed successfully!" ∧
    (createTaskWithCardT taskParamsPolicyViolation (mkAdapters happySystemEnv)).2.map callTag =
      [("github", "create_branch"), ("trello", "create_card")] := by
  decide

/-- TaskCreation parameters naming a repository that is not configured. -/
def taskParamsUnknownRepo : TaskCreationParams :=
  { repoName := some "ghost", branchName := some "feature/login-fix", taskTitle := some "T",
    taskDescription := some "d", trelloListId := some "list1" }

/-- C2 is false on the code: the required branch-creation step fails
(unknown repository, payload `isError = true`), yet the ledger records
an entry for it and the run returns success = true — so `steps` is not
restricted to successfully completed steps, and success = true does not
require every required step to have succeeded. -/
theorem c2_failed_step_recorded_as_success :
    (createTaskWithCardT taskParamsUnknownRepo (mkAdapters happySystemEnv)).1.success = true ∧
    (createTaskWithCardT taskParamsUnknownRepo (mkAdapters happySystemEnv)).1.results.map
      (fun e => (e.type, e.action, e.result.isError)) =
      [("github", "branch_created", true), ("trello", "card_created", false)] ∧
    ((createTaskWithCardT taskParamsUnknownRepo (mkAdapters happySystemEnv)).1.results.map
      (fun e => e.result)).head? =
      some (ghCatchResponse
        "Repository \x27ghost\x27 not found. Available repos: app") := by
  decide

end TaskerMCP
